import Mathlib

/-!
Shallow embedding of `src/app.py` (draw-molecules-and-chemical-compounds).

The program has three pure-logic functions plus an orchestration branch:
  * `get_smiles_from_chembl` (app.py:16-35): one HTTP GET against ChEMBL,
    `raise_for_status`, JSON decode, then a scan over the `molecules` list for
    the first hit with a truthy `canonical_smiles`; every failure is caught and
    collapsed to `None`.
  * `smiles_to_mol` (app.py:42-51): RDKit `MolFromSmiles`, `SanitizeMol`,
    `Compute2DCoords`; returns `None` on falsy input or parse failure.
  * `mol_to_png_bytes` (app.py:59-70): Cairo drawer at the requested
    (width, height) with clearBackground off and a black-and-white atom
    palette; returns `None` for a `None` molecule.
  * The `if submitted:` branch (app.py:138-169): trim check, resolver,
    parser, renderer, each result falsy-checked immediately with `st.stop()`.

The external world is made explicit:
  * the network is a `NetOutcome` value (what `requests.get` does this time);
  * RDKit is an `RDKitEnv` record of functions, with a `Faithful` predicate
    stating RDKit's documented behaviour (`MolFromSmiles` sanitizes by default
    and only returns sanitized molecules; `SanitizeMol` succeeds on an already
    sanitized molecule);
  * the Cairo drawer is a `DrawEnv` record with a `Faithful` predicate stating
    that a rendering at an in-range size is a non-empty PNG whose header
    carries the requested dimensions.

Python exceptions are modelled with `Except PyExn`; a `try/except` becomes a
`match` on the result of the guarded calls.  Bytes are `List Nat`.
-/

/-- Python exception classes that the program can meet.  `timeout`,
`connectionError` and `httpError` are `requests.RequestException` subclasses;
`jsonError` is what `r.json()` raises; `valueError` stands for RDKit's
sanitization errors. -/
inductive PyExn where
  | timeout
  | connectionError
  | httpError
  | jsonError
  | valueError
deriving DecidableEq, Repr

/-- Whether an exception is caught by `except requests.RequestException`
(app.py:22). -/
def PyExn.isRequestException : PyExn → Bool
  | .timeout => true
  | .connectionError => true
  | .httpError => true
  | .jsonError => false
  | .valueError => false

/-- The nested `molecule_structures` dict of a ChEMBL hit: only the
`canonical_smiles` key is read (app.py:30); `none` models a missing or null
key. -/
structure MolStructures where
  canonical_smiles : Option String
deriving DecidableEq, Repr

/-- One record of the `molecules` list of the decoded response.  `none` models
a missing, null or otherwise falsy `molecule_structures` value: app.py:29
replaces any falsy value by `{}` via `h.get("molecule_structures") or {}`. -/
structure Hit where
  molecule_structures : Option MolStructures
deriving DecidableEq, Repr

/-- The decoded JSON body, as far as the program reads it.  `none` models a
missing, null or otherwise falsy `molecules` key: app.py:27 replaces any falsy
value by `[]` via `data.get("molecules") or []`. -/
structure ChemblData where
  molecules : Option (List Hit)
deriving DecidableEq, Repr

/-- An HTTP response as the program observes it: whether the status code is an
error (`raise_for_status` raises iff so), and what `r.json()` yields (`none`
models a body that cannot be decoded as structured data, where `r.json()`
raises). -/
structure HttpResponse where
  statusError : Bool
  jsonBody : Option ChemblData
deriving DecidableEq, Repr

/-- What `requests.get(url, timeout=30)` does on this call: raise a timeout,
raise a connection error, or return a response. -/
inductive NetOutcome where
  | timeout
  | connError
  | ok (r : HttpResponse)
deriving DecidableEq, Repr

/-- `requests.get(url, timeout=30)` (app.py:20). -/
def requests_get (net : NetOutcome) : Except PyExn HttpResponse :=
  match net with
  | .timeout => .error .timeout
  | .connError => .error .connectionError
  | .ok r => .ok r

/-- `r.raise_for_status()` (app.py:21): raises `HTTPError` on an error
status. -/
def raise_for_status (r : HttpResponse) : Except PyExn Unit :=
  if r.statusError then .error .httpError else .ok ()

/-- `r.json()` (app.py:26): raises if the body is not decodable. -/
def response_json (r : HttpResponse) : Except PyExn ChemblData :=
  match r.jsonBody with
  | none => .error .jsonError
  | some data => .ok data

/-- The scan over `hits` (app.py:28-33): for each hit take
`h.get("molecule_structures") or {}`, read `canonical_smiles`, and return it
if truthy (a non-empty string); otherwise keep scanning; `None` after the
loop. -/
def firstSmiles : List Hit → Option String
  | [] => none
  | h :: rest =>
    let ms := h.molecule_structures.getD { canonical_smiles := none }
    match ms.canonical_smiles with
    | some s => if s = "" then firstSmiles rest else some s
    | none => firstSmiles rest

/-- `get_smiles_from_chembl` (app.py:16-35).  The URL construction
(app.py:18) only addresses the remote service and is absorbed into the
`NetOutcome` parameter.  The first `try/except requests.RequestException`
guards `requests.get` and `raise_for_status`; the second
`try/except Exception` guards the decode and the scan. -/
def get_smiles_from_chembl (net : NetOutcome) : Except PyExn (Option String) :=
  match (requests_get net).bind (fun r => (raise_for_status r).map (fun _ => r)) with
  | .error e => if e.isRequestException then .ok none else .error e
  | .ok r =>
    match response_json r with
    | .error _ => .ok none
    | .ok data => .ok (firstSmiles (data.molecules.getD []))

/-- Spec-side reading of a hit's canonical structural field (for the C1
refinement): the `canonical_smiles` value behind `molecule_structures`, if
any. -/
def hitSmilesField (h : Hit) : Option String :=
  (h.molecule_structures.getD { canonical_smiles := none }).canonical_smiles

/-- Spec-side definition, following the spec's words: "returns the first
candidate that carries a non-empty canonical structural field", `none` if the
list is empty or no candidate carries one. -/
def specFirstNonEmpty (hits : List Hit) : Option String :=
  (hits.find? (fun h =>
    match hitSmilesField h with
    | some s => decide (s ≠ "")
    | none => false)).bind hitSmilesField

/-- An RDKit molecule as far as this program observes it: an abstract handle
for the molecular graph, plus whether sanitization has been successfully
applied and whether 2D coordinates have been computed. -/
structure Mol where
  graph : Nat
  sanitized : Bool
  has2D : Bool
deriving DecidableEq, Repr

/-- The RDKit operations the program calls, as an explicit environment.
`molFromSmiles` is `Chem.MolFromSmiles` (returns `none` on any parse or
sanitize failure — it sanitizes by default); `sanitizeMol` is
`Chem.SanitizeMol` (raises on a sanitization failure, otherwise yields the
sanitized molecule); `compute2DCoords` is `AllChem.Compute2DCoords` (adds a 2D
conformer). -/
structure RDKitEnv where
  molFromSmiles : String → Option Mol
  sanitizeMol : Mol → Except PyExn Mol
  compute2DCoords : Mol → Mol

/-- RDKit's documented behaviour, assumed where a claim needs it:
`MolFromSmiles` sanitizes by default, so any molecule it returns is
sanitized; `SanitizeMol` succeeds on an already sanitized molecule and keeps
it sanitized; `Compute2DCoords` preserves sanitization and installs 2D
coordinates. -/
def RDKitEnv.Faithful (env : RDKitEnv) : Prop :=
  (∀ s m, env.molFromSmiles s = some m → m.sanitized = true) ∧
  (∀ m, m.sanitized = true →
    ∃ m1, env.sanitizeMol m = .ok m1 ∧ m1.sanitized = true) ∧
  (∀ m, (env.compute2DCoords m).sanitized = m.sanitized ∧
    (env.compute2DCoords m).has2D = true)

/-- `smiles_to_mol` (app.py:42-51).  `if not smiles` is Python's falsy test on
a string, i.e. emptiness.  Note there is no `try/except` here: a raise from
`SanitizeMol` propagates to the caller. -/
def smiles_to_mol (env : RDKitEnv) (smiles : String) : Except PyExn (Option Mol) :=
  if smiles = "" then .ok none
  else
    match env.molFromSmiles smiles with
    | none => .ok none
    | some mol =>
      match env.sanitizeMol mol with
      | .error e => .error e
      | .ok mol1 => .ok (some (env.compute2DCoords mol1))

/-- The drawing options the program touches (app.py:65-67). -/
structure DrawOptions where
  clearBackground : Bool
  bwAtomPalette : Bool
deriving DecidableEq, Repr

/-- The style `mol_to_png_bytes` configures: `opts.clearBackground = False`
and `opts.useBWAtomPalette()` (app.py:66-67). -/
def drawStyle : DrawOptions := { clearBackground := false, bwAtomPalette := true }

/-- The Cairo drawing backend as an explicit environment: the composite of
`MolDraw2DCairo(w, h)`, `PrepareAndDrawMolecule(drawer, mol, legend)`,
`FinishDrawing()` and `GetDrawingText()` (app.py:64-70), returning PNG
bytes. -/
structure DrawEnv where
  render : Mol → String → Nat → Nat → DrawOptions → List Nat

/-- Big-endian decoding of a 4-byte run, as in a PNG IHDR chunk. -/
def readBE32 (bs : List Nat) : Nat :=
  match bs with
  | [a, b, c, d] => ((a * 256 + b) * 256 + c) * 256 + d
  | _ => 0

/-- The pixel dimensions a PNG byte buffer encodes: the IHDR width and height
fields are the big-endian 32-bit words at byte offsets 16-19 and 20-23. -/
def pngDims (bs : List Nat) : Option (Nat × Nat) :=
  if bs.length < 24 then none
  else some (readBE32 ((bs.drop 16).take 4), readBE32 ((bs.drop 20).take 4))

/-- The drawing backend's documented behaviour, assumed where a claim needs
it: at any size within the program's supported range (the form constrains
width and height to 200-4000, app.py:131-133) a rendering is a non-empty PNG
whose header carries the requested dimensions. -/
def DrawEnv.Faithful (denv : DrawEnv) : Prop :=
  ∀ m legend w h opts, 200 ≤ w → w ≤ 4000 → 200 ≤ h → h ≤ 4000 →
    denv.render m legend w h opts ≠ [] ∧
    pngDims (denv.render m legend w h opts) = some (w, h)

/-- `mol_to_png_bytes` (app.py:59-70): `None` for a `None` molecule, else the
drawer's bytes at the requested size with the fixed style. -/
def mol_to_png_bytes (denv : DrawEnv) (mol : Option Mol) (legend : String)
    (size : Nat × Nat) : Option (List Nat) :=
  match mol with
  | none => none
  | some m => some (denv.render m legend size.1 size.2 drawStyle)

/-- The pipeline stages, for recording which calls happen. -/
inductive Stage where
  | resolver
  | parser
  | renderer
deriving DecidableEq, Repr

/-- The user-facing outcome of one submission (app.py:138-169). -/
inductive Outcome where
  | inputError
  | lookupError
  | parseError
  | renderError
  | success (smiles : String) (png : List Nat) (filename : String)
deriving DecidableEq, Repr

/-- Python's `str.strip()` with no argument: remove whitespace from both ends
of the string. -/
def pyStrip (s : String) : String :=
  ⟨((s.data.dropWhile Char.isWhitespace).reverse.dropWhile Char.isWhitespace).reverse⟩

/-- The `if submitted:` branch (app.py:138-169), instrumented with the list of
stage calls in the order they are issued.  `if not name.strip()` is the strip
check; `if not smiles` and `if not png_bytes` are Python falsy tests (`None`
or empty); on success the image is presented under
filename `name.strip() + ".png"`. -/
def run_submitted (net : NetOutcome) (env : RDKitEnv) (denv : DrawEnv)
    (name legend : String) (width height : Nat) :
    Except PyExn (Outcome × List Stage) :=
  if pyStrip name = "" then .ok (.inputError, [])
  else
    let ev0 := [Stage.resolver]
    match get_smiles_from_chembl net with
    | .error e => .error e
    | .ok none => .ok (.lookupError, ev0)
    | .ok (some smiles) =>
      if smiles = "" then .ok (.lookupError, ev0)
      else
        let ev1 := ev0 ++ [Stage.parser]
        match smiles_to_mol env smiles with
        | .error e => .error e
        | .ok none => .ok (.parseError, ev1)
        | .ok (some mol) =>
          let ev2 := ev1 ++ [Stage.renderer]
          match mol_to_png_bytes denv (some mol) legend (width, height) with
          | none => .ok (.renderError, ev2)
          | some png =>
            if png = [] then .ok (.renderError, ev2)
            else .ok (.success smiles png (pyStrip name ++ ".png"), ev2)

/-! ### Concrete fixtures, used by the witnesses -/

/-- A hit with no `molecule_structures` value. -/
def hitNone : Hit := { molecule_structures := none }

/-- A hit whose canonical field is the empty (falsy) string. -/
def hitBlank : Hit := { molecule_structures := some { canonical_smiles := some "" } }

/-- A hit carrying the ethanol encoding. -/
def hitCCO : Hit := { molecule_structures := some { canonical_smiles := some "CCO" } }

/-- A decoded body whose first two hits carry no usable field. -/
def dataEx : ChemblData := { molecules := some [hitNone, hitBlank, hitCCO] }

/-- A decoded body with no `molecules` key. -/
def dataEmpty : ChemblData := { molecules := none }

/-- A clean response carrying `dataEx`. -/
def respEx : HttpResponse := { statusError := false, jsonBody := some dataEx }

/-- A response with an HTTP error status. -/
def respErrStatus : HttpResponse := { statusError := true, jsonBody := some dataEx }

/-- A response whose body cannot be decoded. -/
def respBadJson : HttpResponse := { statusError := false, jsonBody := none }

/-- A clean response with an empty candidate list. -/
def respEmpty : HttpResponse := { statusError := false, jsonBody := some dataEmpty }

/-- The (sanitized, not yet laid out) molecule the toy RDKit returns for
`"CCO"`. -/
def molCCO : Mol := { graph := 1, sanitized := true, has2D := false }

/-- A toy RDKit instance: parses exactly `"CCO"`, sanitizes what is already
sanitized, lays out by setting the 2D flag. -/
def toyRDKit : RDKitEnv where
  molFromSmiles := fun s => if s = "CCO" then some molCCO else none
  sanitizeMol := fun m => if m.sanitized then .ok m else .error .valueError
  compute2DCoords := fun m => { m with has2D := true }

/-- A 24-byte PNG-header-shaped buffer with the dimensions at the IHDR
offsets. -/
def pngStub (w h : Nat) : List Nat :=
  [0, 0, 0, 0, 0, 0, 0, 0, 0, 0, 0, 0, 0, 0, 0, 0,
   w / 16777216 % 256, w / 65536 % 256, w / 256 % 256, w % 256,
   h / 16777216 % 256, h / 65536 % 256, h / 256 % 256, h % 256]

/-- A toy drawing backend emitting `pngStub`. -/
def toyDraw : DrawEnv where
  render := fun _ _ w h _ => pngStub w h

/-- A hit carrying an encoding the toy RDKit cannot parse. -/
def hitXXX : Hit := { molecule_structures := some { canonical_smiles := some "XXX" } }

/-- A decoded body whose only hit carries the unparsable encoding. -/
def dataXXX : ChemblData := { molecules := some [hitXXX] }

/-- A clean response carrying `dataXXX`. -/
def respXXX : HttpResponse := { statusError := false, jsonBody := some dataXXX }

/-! ### Helper lemmas -/

/-- Unfolding of the scan step through the spec-side field reader. -/
theorem firstSmiles_cons (h : Hit) (t : List Hit) :
    firstSmiles (h :: t) =
      match hitSmilesField h with
      | some s => if s = "" then firstSmiles t else some s
      | none => firstSmiles t := rfl

/-- The scan never returns the empty string. -/
theorem firstSmiles_ne_empty (hits : List Hit) : firstSmiles hits ≠ some "" := by
  induction hits with
  | nil => simp [firstSmiles]
  | cons h t ih =>
    rw [firstSmiles_cons]
    cases hms : hitSmilesField h with
    | none => exact ih
    | some s =>
      by_cases hse : s = ""
      · simpa [hse] using ih
      · simp [hse]

/-- The scan agrees with the spec-side "first candidate with a non-empty
canonical field" definition. -/
theorem firstSmiles_eq_spec (hits : List Hit) :
    firstSmiles hits = specFirstNonEmpty hits := by
  induction hits with
  | nil => rfl
  | cons h t ih =>
    rw [firstSmiles_cons]
    cases hms : hitSmilesField h with
    | none =>
      show firstSmiles t = specFirstNonEmpty (h :: t)
      rw [ih]
      simp [specFirstNonEmpty, List.find?, hms]
    | some s =>
      show (if s = "" then firstSmiles t else some s) = specFirstNonEmpty (h :: t)
      by_cases hse : s = ""
      · rw [if_pos hse, ih]
        simp [specFirstNonEmpty, List.find?, hms, hse]
      · rw [if_neg hse]
        simp [specFirstNonEmpty, List.find?, hms, hse]

/-- Resolver evaluation: a timeout is caught and yields `None`. -/
theorem get_smiles_timeout : get_smiles_from_chembl .timeout = .ok none := rfl

/-- Resolver evaluation: a connection error is caught and yields `None`. -/
theorem get_smiles_connError : get_smiles_from_chembl .connError = .ok none := rfl

/-- Resolver evaluation: an HTTP error status makes `raise_for_status` raise,
which is caught and yields `None`. -/
theorem get_smiles_statusError (r : HttpResponse) (hs : r.statusError = true) :
    get_smiles_from_chembl (.ok r) = .ok none := by
  simp [get_smiles_from_chembl, requests_get, raise_for_status, hs,
    Except.bind, Except.map, PyExn.isRequestException]

/-- Resolver evaluation: an undecodable body makes `r.json()` raise, which is
caught and yields `None`. -/
theorem get_smiles_badJson (r : HttpResponse) (hs : r.statusError = false)
    (hj : r.jsonBody = none) : get_smiles_from_chembl (.ok r) = .ok none := by
  simp [get_smiles_from_chembl, requests_get, raise_for_status, hs,
    response_json, hj, Except.bind, Except.map]

/-- Resolver evaluation: on a clean decoded response the result is the scan
of the candidate list. -/
theorem get_smiles_ok (r : HttpResponse) (data : ChemblData)
    (hs : r.statusError = false) (hj : r.jsonBody = some data) :
    get_smiles_from_chembl (.ok r) = .ok (firstSmiles (data.molecules.getD [])) := by
  simp [get_smiles_from_chembl, requests_get, raise_for_status, hs,
    response_json, hj, Except.bind, Except.map]

/-- The resolver never raises and never returns the empty string. -/
theorem resolver_ok_ne_empty (net : NetOutcome) :
    ∃ v, get_smiles_from_chembl net = .ok v ∧ v ≠ some "" := by
  cases net with
  | timeout => exact ⟨none, get_smiles_timeout, by simp⟩
  | connError => exact ⟨none, get_smiles_connError, by simp⟩
  | ok r =>
    cases hs : r.statusError with
    | true => exact ⟨none, get_smiles_statusError r hs, by simp⟩
    | false =>
      cases hj : r.jsonBody with
      | none => exact ⟨none, get_smiles_badJson r hs hj, by simp⟩
      | some data =>
        exact ⟨firstSmiles (data.molecules.getD []), get_smiles_ok r data hs hj,
          firstSmiles_ne_empty _⟩

/-- The toy RDKit instance satisfies the faithfulness assumptions. -/
theorem toyRDKit_faithful : toyRDKit.Faithful := by
  refine ⟨?_, ?_, ?_⟩
  · intro s m hm
    by_cases hs : s = "CCO"
    · simp [toyRDKit, hs] at hm
      rw [← hm]
      rfl
    · simp [toyRDKit, hs] at hm
  · intro m hm
    exact ⟨m, by simp [toyRDKit, hm], hm⟩
  · intro m
    exact ⟨rfl, rfl⟩

/-- The stub PNG carries the requested dimensions in its header. -/
theorem pngStub_dims (w h : Nat) (hw : w < 4294967296) (hh : h < 4294967296) :
    pngDims (pngStub w h) = some (w, h) := by
  show some (((w / 16777216 % 256 * 256 + w / 65536 % 256) * 256 + w / 256 % 256) * 256 + w % 256,
      ((h / 16777216 % 256 * 256 + h / 65536 % 256) * 256 + h / 256 % 256) * 256 + h % 256)
      = some (w, h)
  have hw2 : ((w / 16777216 % 256 * 256 + w / 65536 % 256) * 256 + w / 256 % 256) * 256
      + w % 256 = w := by omega
  have hh2 : ((h / 16777216 % 256 * 256 + h / 65536 % 256) * 256 + h / 256 % 256) * 256
      + h % 256 = h := by omega
  rw [hw2, hh2]

/-- The toy drawing backend satisfies the faithfulness assumptions. -/
theorem toyDraw_faithful : toyDraw.Faithful := by
  intro m legend w h opts hw1 hw2 hh1 hh2
  constructor
  · show pngStub w h ≠ []
    simp [pngStub]
  · show pngDims (pngStub w h) = some (w, h)
    exact pngStub_dims w h (by omega) (by omega)

/-! ### The claims -/

/-- Claim C1: for every compound lookup, on a decoded response the resolver
examines the candidate list in the order returned by the remote service and
returns the canonical field of the first candidate whose canonical field is
non-empty; if the list is empty or no candidate carries such a field, the
spec-side value (and hence the result) is `none`. -/
theorem C1_resolver_first_nonempty (r : HttpResponse) (data : ChemblData)
    (hs : r.statusError = false) (hj : r.jsonBody = some data) :
    get_smiles_from_chembl (.ok r) =
      .ok (specFirstNonEmpty (data.molecules.getD [])) := by
  rw [get_smiles_ok r data hs hj, firstSmiles_eq_spec]

/-- Witness for C1 at a concrete response whose first two candidates carry no
usable field: the third one's `"CCO"` is returned. -/
theorem C1_witness :
    respEx.statusError = false ∧ respEx.jsonBody = some dataEx ∧
    get_smiles_from_chembl (.ok respEx) =
      .ok (specFirstNonEmpty (dataEx.molecules.getD [])) ∧
    specFirstNonEmpty (dataEx.molecules.getD []) = some "CCO" :=
  ⟨rfl, rfl, C1_resolver_first_nonempty respEx dataEx rfl rfl, by decide⟩

/-- Claim C2: the resolver never raises past its boundary — every input
yields an `.ok` result — and every failure mode (timeout, connection error,
HTTP error status, undecodable body, no matching field) yields the same
`None`. -/
theorem C2_resolver_never_raises :
    (∀ net, ∃ v, get_smiles_from_chembl net = .ok v) ∧
    get_smiles_from_chembl .timeout = .ok none ∧
    get_smiles_from_chembl .connError = .ok none ∧
    (∀ r, r.statusError = true → get_smiles_from_chembl (.ok r) = .ok none) ∧
    (∀ r, r.statusError = false → r.jsonBody = none →
      get_smiles_from_chembl (.ok r) = .ok none) ∧
    (∀ r data, r.statusError = false → r.jsonBody = some data →
      firstSmiles (data.molecules.getD []) = none →
      get_smiles_from_chembl (.ok r) = .ok none) := by
  refine ⟨?_, get_smiles_timeout, get_smiles_connError, get_smiles_statusError,
    get_smiles_badJson, ?_⟩
  · intro net
    obtain ⟨v, hv, -⟩ := resolver_ok_ne_empty net
    exact ⟨v, hv⟩
  · intro r data hs hj hnone
    rw [get_smiles_ok r data hs hj, hnone]

/-- Witness for C2 at one concrete input per failure mode. -/
theorem C2_witness :
    get_smiles_from_chembl .timeout = .ok none ∧
    (respErrStatus.statusError = true ∧
      get_smiles_from_chembl (.ok respErrStatus) = .ok none) ∧
    (respBadJson.statusError = false ∧ respBadJson.jsonBody = none ∧
      get_smiles_from_chembl (.ok respBadJson) = .ok none) ∧
    (respEmpty.statusError = false ∧ respEmpty.jsonBody = some dataEmpty ∧
      firstSmiles (dataEmpty.molecules.getD []) = none ∧
      get_smiles_from_chembl (.ok respEmpty) = .ok none) :=
  ⟨C2_resolver_never_raises.2.1,
   ⟨rfl, C2_resolver_never_raises.2.2.2.1 respErrStatus rfl⟩,
   ⟨rfl, rfl, C2_resolver_never_raises.2.2.2.2.1 respBadJson rfl rfl⟩,
   ⟨rfl, rfl, rfl,
    C2_resolver_never_raises.2.2.2.2.2 respEmpty dataEmpty rfl rfl rfl⟩⟩

/-- Claim C3: under RDKit's documented behaviour, the parser never lets an
exception escape — every string, malformed ones included, yields an `.ok`
result — and that result is either `none` or a sanitized molecule with 2D
coordinates; any parse failure yields `none`. -/
theorem C3_parser_no_escape (env : RDKitEnv) (henv : env.Faithful) (s : String) :
    ∃ v, smiles_to_mol env s = .ok v ∧
      (∀ m, v = some m → m.sanitized = true ∧ m.has2D = true) ∧
      (env.molFromSmiles s = none → v = none) := by
  obtain ⟨h1, h2, h3⟩ := henv
  by_cases hse : s = ""
  · refine ⟨none, by simp [smiles_to_mol, hse], ?_, fun _ => rfl⟩
    intro m hm
    cases hm
  · cases hm : env.molFromSmiles s with
    | none =>
      refine ⟨none, by simp [smiles_to_mol, hse, hm], ?_, fun _ => rfl⟩
      intro m hmm
      cases hmm
    | some m0 =>
      obtain ⟨m1, hs1, hs2⟩ := h2 m0 (h1 s m0 hm)
      refine ⟨some (env.compute2DCoords m1), ?_, ?_, ?_⟩
      · simp [smiles_to_mol, hse, hm, hs1]
      · intro m hmeq
        obtain ⟨hsan, h2d⟩ := h3 m1
        cases hmeq
        exact ⟨by rw [hsan, hs2], h2d⟩
      · intro hc
        exact Option.noConfusion hc

/-- Witness for C3: the toy RDKit is faithful and the claim holds at
`"CCO"`. -/
theorem C3_witness :
    toyRDKit.Faithful ∧
    ∃ v, smiles_to_mol toyRDKit "CCO" = .ok v ∧
      (∀ m, v = some m → m.sanitized = true ∧ m.has2D = true) ∧
      (toyRDKit.molFromSmiles "CCO" = none → v = none) :=
  ⟨toyRDKit_faithful, C3_parser_no_escape toyRDKit toyRDKit_faithful "CCO"⟩

/-- Claim C4: the invariant that a molecule is never constructed from an
invalid encoding — whenever the parser returns a molecule, the input was
non-empty, `MolFromSmiles` parsed it and `SanitizeMol` succeeded on the
parse, and the result is exactly the laid-out sanitized parse. -/
theorem C4_mol_implies_valid (env : RDKitEnv) (s : String) (m : Mol)
    (hm : smiles_to_mol env s = .ok (some m)) :
    s ≠ "" ∧ ∃ m0 m1, env.molFromSmiles s = some m0 ∧
      env.sanitizeMol m0 = .ok m1 ∧ m = env.compute2DCoords m1 := by
  by_cases hse : s = ""
  · simp [smiles_to_mol, hse] at hm
  · cases hmf : env.molFromSmiles s with
    | none => simp [smiles_to_mol, hse, hmf] at hm
    | some m0 =>
      cases hsan : env.sanitizeMol m0 with
      | error e => simp [smiles_to_mol, hse, hmf, hsan] at hm
      | ok m1 =>
        refine ⟨hse, m0, m1, rfl, hsan, ?_⟩
        simp [smiles_to_mol, hse, hmf, hsan] at hm
        exact hm.symm

/-- Witness for C4 at the toy RDKit and `"CCO"`. -/
theorem C4_witness :
    smiles_to_mol toyRDKit "CCO" =
      .ok (some { graph := 1, sanitized := true, has2D := true }) ∧
    ("CCO" : String) ≠ "" ∧ ∃ m0 m1, toyRDKit.molFromSmiles "CCO" = some m0 ∧
      toyRDKit.sanitizeMol m0 = .ok m1 ∧
      ({ graph := 1, sanitized := true, has2D := true } : Mol) =
        toyRDKit.compute2DCoords m1 :=
  ⟨rfl, C4_mol_implies_valid toyRDKit "CCO"
    { graph := 1, sanitized := true, has2D := true } rfl⟩

/-- Claim C5: under the drawing backend's documented behaviour, parse followed
by render at any (width, height) within the supported 200-4000 range yields a
non-empty image buffer whose encoded pixel dimensions equal the requested
width and height. -/
theorem C5_parse_render_dims (env : RDKitEnv) (denv : DrawEnv)
    (hd : denv.Faithful) (s : String) (m : Mol)
    (_hm : smiles_to_mol env s = .ok (some m)) (legend : String) (w h : Nat)
    (hw1 : 200 ≤ w) (hw2 : w ≤ 4000) (hh1 : 200 ≤ h) (hh2 : h ≤ 4000) :
    ∃ png, mol_to_png_bytes denv (some m) legend (w, h) = some png ∧
      png ≠ [] ∧ pngDims png = some (w, h) := by
  obtain ⟨hne, hdims⟩ := hd m legend w h drawStyle hw1 hw2 hh1 hh2
  exact ⟨denv.render m legend w h drawStyle, rfl, hne, hdims⟩

/-- Witness for C5 at the toy environments, `"CCO"` and the default 1200x800
size. -/
theorem C5_witness :
    toyDraw.Faithful ∧
    smiles_to_mol toyRDKit "CCO" =
      .ok (some { graph := 1, sanitized := true, has2D := true }) ∧
    (200 ≤ 1200 ∧ 1200 ≤ 4000 ∧ 200 ≤ 800 ∧ 800 ≤ 4000) ∧
    ∃ png, mol_to_png_bytes toyDraw
        (some { graph := 1, sanitized := true, has2D := true }) "" (1200, 800) =
        some png ∧ png ≠ [] ∧ pngDims png = some (1200, 800) :=
  ⟨toyDraw_faithful, rfl, by decide,
   C5_parse_render_dims toyRDKit toyDraw toyDraw_faithful "CCO"
     { graph := 1, sanitized := true, has2D := true } rfl "" 1200 800
     (by decide) (by decide) (by decide) (by decide)⟩

/-- Claim C6: the renderer is deterministic — two drawing backends with the
same rendering behaviour (in particular, one and the same backend twice)
produce byte-identical output on identical molecule, caption and size. -/
theorem C6_render_deterministic (d1 d2 : DrawEnv) (hr : d1.render = d2.render)
    (mol : Option Mol) (legend : String) (size : Nat × Nat) :
    mol_to_png_bytes d1 mol legend size = mol_to_png_bytes d2 mol legend size := by
  cases mol <;> simp [mol_to_png_bytes, hr]

/-- Witness for C6: rendering `molCCO` twice with the toy backend at
1200x800. -/
theorem C6_witness :
    mol_to_png_bytes toyDraw (some molCCO) "caption" (1200, 800) =
      mol_to_png_bytes toyDraw (some molCCO) "caption" (1200, 800) :=
  C6_render_deterministic toyDraw toyDraw rfl (some molCCO) "caption" (1200, 800)

/-- Claim C7: the renderer returns `None` exactly when its input molecule is
`None`; for every non-null molecule it returns the backend's image bytes. -/
theorem C7_render_none_iff_null (denv : DrawEnv) (mol : Option Mol)
    (legend : String) (size : Nat × Nat) :
    (mol_to_png_bytes denv mol legend size = none ↔ mol = none) ∧
    ∀ m, mol_to_png_bytes denv (some m) legend size =
      some (denv.render m legend size.1 size.2 drawStyle) := by
  constructor
  · cases mol <;> simp [mol_to_png_bytes]
  · intro m
    rfl

/-- Claim C8: the orchestration is strictly forward and short-circuits — if
the resolver returns `None` the run reports the lookup failure and the call
trace is exactly `[resolver]` (parser and renderer never invoked); if the
parser returns `None` the run reports the invalid structure and the trace is
exactly `[resolver, parser]` (renderer never invoked). -/
theorem C8_short_circuit :
    (∀ net env denv name legend w h, pyStrip name ≠ "" →
      get_smiles_from_chembl net = .ok none →
      run_submitted net env denv name legend w h =
        .ok (.lookupError, [Stage.resolver])) ∧
    (∀ net env denv name legend w h s, pyStrip name ≠ "" →
      get_smiles_from_chembl net = .ok (some s) → s ≠ "" →
      smiles_to_mol env s = .ok none →
      run_submitted net env denv name legend w h =
        .ok (.parseError, [Stage.resolver, Stage.parser])) := by
  constructor
  · intro net env denv name legend w h hname hget
    simp [run_submitted, hname, hget]
  · intro net env denv name legend w h s hname hget hsne hsm
    simp [run_submitted, hname, hget, hsne, hsm]

/-- Witness for C8: a response with an empty candidate list halts at the
resolver; a response resolving to an encoding the toy RDKit rejects halts at
the parser. -/
theorem C8_witness :
    pyStrip "ethanol" ≠ "" ∧
    get_smiles_from_chembl (.ok respEmpty) = .ok none ∧
    run_submitted (.ok respEmpty) toyRDKit toyDraw "ethanol" "" 1200 800 =
      .ok (.lookupError, [Stage.resolver]) ∧
    get_smiles_from_chembl (.ok respXXX) = .ok (some "XXX") ∧
    smiles_to_mol toyRDKit "XXX" = .ok none ∧
    run_submitted (.ok respXXX) toyRDKit toyDraw "ethanol" "" 1200 800 =
      .ok (.parseError, [Stage.resolver, Stage.parser]) :=
  ⟨by decide, rfl,
   C8_short_circuit.1 (.ok respEmpty) toyRDKit toyDraw "ethanol" "" 1200 800
     (by decide) rfl,
   rfl, rfl,
   C8_short_circuit.2 (.ok respXXX) toyRDKit toyDraw "ethanol" "" 1200 800 "XXX"
     (by decide) rfl (by decide) rfl⟩

/-- Claim C9: a submitted name that strips to the empty string halts the run
immediately with the input-validation message, and the call trace is empty —
in particular the resolver (the only network call) is never invoked. -/
theorem C9_blank_name_no_network (net : NetOutcome) (env : RDKitEnv)
    (denv : DrawEnv) (name legend : String) (w h : Nat)
    (hname : pyStrip name = "") :
    run_submitted net env denv name legend w h = .ok (.inputError, []) := by
  simp [run_submitted, hname]

/-- Witness for C9 at the whitespace-only name. -/
theorem C9_witness :
    pyStrip "   " = "" ∧
    run_submitted .timeout toyRDKit toyDraw "   " "" 1200 800 =
      .ok (.inputError, []) :=
  ⟨by decide,
   C9_blank_name_no_network .timeout toyRDKit toyDraw "   " "" 1200 800 (by decide)⟩

/-- Claim C10 (implicit): the resolver never returns the empty string — its
result is `None` or a non-empty encoding — so the orchestration's falsy check
on the result never classifies a successful lookup as a lookup failure. -/
theorem C10_resolver_never_empty :
    (∀ net v, get_smiles_from_chembl net = .ok v → v ≠ some "") ∧
    (∀ net env denv name legend w h s, pyStrip name ≠ "" →
      get_smiles_from_chembl net = .ok (some s) →
      ∀ out evs, run_submitted net env denv name legend w h = .ok (out, evs) →
        out ≠ .lookupError) := by
  have key : ∀ net v, get_smiles_from_chembl net = .ok v → v ≠ some "" := by
    intro net v hv
    obtain ⟨v2, hv2, hne⟩ := resolver_ok_ne_empty net
    rw [hv] at hv2
    injection hv2 with hveq
    rw [hveq]
    exact hne
  refine ⟨key, ?_⟩
  intro net env denv name legend w h s hname hget out evs hrun
  have hs : s ≠ "" := by
    intro hc
    exact key net (some s) hget (by rw [hc])
  simp only [run_submitted, if_neg hname, hget, if_neg hs] at hrun
  cases hsm : smiles_to_mol env s with
  | error e =>
    rw [hsm] at hrun
    exact Except.noConfusion hrun
  | ok mo =>
    rw [hsm] at hrun
    cases mo with
    | none =>
      simp only [Except.ok.injEq, Prod.mk.injEq] at hrun
      obtain ⟨hout, -⟩ := hrun
      rw [← hout]
      decide
    | some mol =>
      simp only [mol_to_png_bytes] at hrun
      by_cases hpng : denv.render mol legend w h drawStyle = []
      · rw [if_pos hpng] at hrun
        simp only [Except.ok.injEq, Prod.mk.injEq] at hrun
        obtain ⟨hout, -⟩ := hrun
        rw [← hout]
        decide
      · rw [if_neg hpng] at hrun
        simp only [Except.ok.injEq, Prod.mk.injEq] at hrun
        obtain ⟨hout, -⟩ := hrun
        rw [← hout]
        simp

/-- Witness for C10: the resolver result for the concrete clean response is
`"CCO"`, not the empty string, and the run on the unparsable-encoding
response does not report a lookup failure. -/
theorem C10_witness :
    (get_smiles_from_chembl (.ok respEx) = .ok (some "CCO") ∧
      some "CCO" ≠ some "") ∧
    (pyStrip "ethanol" ≠ "" ∧
      run_submitted (.ok respXXX) toyRDKit toyDraw "ethanol" "" 1200 800 =
        .ok (.parseError, [Stage.resolver, Stage.parser]) ∧
      Outcome.parseError ≠ Outcome.lookupError) :=
  ⟨⟨rfl, C10_resolver_never_empty.1 (.ok respEx) (some "CCO") rfl⟩,
   ⟨by decide, rfl,
    C10_resolver_never_empty.2 (.ok respXXX) toyRDKit toyDraw "ethanol" "" 1200
      800 "XXX" (by decide) rfl .parseError [Stage.resolver, Stage.parser] rfl⟩⟩
